import Mathlib

/-!
Verification model of the generated Google API client code in
`src/gen/youtubereporting1/src/api.rs` and `src/gen/documentai1_beta2/src/api.rs`.

Rust `String` values are modelled as lists of characters (`Str`), machine
integers as `Nat`/`Int`, and the external collaborators (the hyper HTTP
transport, the yup-oauth2 authenticator, the serde JSON codec and the url
crate) as explicit inputs: each iteration of a `doit` retry loop consumes one
`Attempt` record describing the answers the environment and the injected
delegate give during that iteration, and JSON decoders are passed in as
functions `Str → Option α`.
-/

/-- Rust `String` / `&str`, modelled as a list of characters. -/
abbrev Str := List Char

/-- The `{` character (written via its code point to keep it out of string
literals). -/
def lbrace : Char := Char.ofNat 123

/-- The `}` character. -/
def rbrace : Char := Char.ofNat 125

/-- `pat.strStartsWith s`: does `s` start with `pat`?  Models Rust's
`str::starts_with` as used implicitly by `str::replace` matching. -/
def strStartsWith : Str → Str → Bool
  | [], _ => true
  | _ :: _, [] => false
  | p :: pt, c :: cs => p == c && strStartsWith pt cs

/-- Does `pat` occur as a contiguous substring of `s`? -/
def containsSub (pat : Str) : Str → Bool
  | [] => strStartsWith pat []
  | c :: rest => strStartsWith pat (c :: rest) || containsSub pat rest

/-- Fuel-indexed worker for `listReplace`; the fuel dominates the length of
the string still to scan, so `listReplace` always supplies enough. -/
def listReplaceAux (pat rep : Str) : Nat → Str → Str
  | _, [] => []
  | 0, s => s
  | fuel + 1, c :: rest =>
    if pat ≠ [] ∧ strStartsWith pat (c :: rest) then
      rep ++ listReplaceAux pat rep fuel (rest.drop (pat.length - 1))
    else
      c :: listReplaceAux pat rep fuel rest

/-- Rust's `str::replace self pat rep`: replace every non-overlapping
occurrence of `pat`, scanning left to right; replacement text is not
rescanned. -/
def listReplace (pat rep s : Str) : Str := listReplaceAux pat rep s.length s

/-- Uppercase hexadecimal digit for `n < 16`. -/
def hexDigit (n : Nat) : Char :=
  if n < 10 then Char.ofNat (48 + n) else Char.ofNat (55 + n)

/-- Membership of a byte in the url crate's `DEFAULT_ENCODE_SET`
(C0 controls, space, `"`, `#`, `<`, `>`, backtick, `?` and the two curly
braces, plus all bytes above `0x7E`). -/
def inDefaultEncodeSet (b : Nat) : Bool :=
  b < 33 || b > 126 || b == 34 || b == 35 || b == 60 || b == 62 ||
    b == 96 || b == 63 || b == 123 || b == 125

/-- Percent-encode a single byte as `%XX`. -/
def percentEncodeByte (b : Nat) : Str :=
  ['%', hexDigit (b / 16), hexDigit (b % 16)]

/-- The UTF-8 encoding of one character, as byte values. -/
def charUtf8Bytes (c : Char) : List Nat :=
  let n := c.toNat
  if n < 128 then [n]
  else if n < 2048 then [192 + n / 64, 128 + n % 64]
  else if n < 65536 then [224 + n / 4096, 128 + n / 64 % 64, 128 + n % 64]
  else [240 + n / 262144, 128 + n / 4096 % 64, 128 + n / 64 % 64, 128 + n % 64]

/-- The UTF-8 byte sequence of a string; its length is the byte length Rust
reports for the string (used for the `Content-Length` header). -/
def strUtf8Bytes (s : Str) : List Nat := s.flatMap charUtf8Bytes

/-- `percent_encode(value, DEFAULT_ENCODE_SET)` from the url crate, applied to
the UTF-8 bytes of the value. -/
def percentEncodeDefault (s : Str) : Str :=
  (strUtf8Bytes s).flatMap
    (fun b => if inDefaultEncodeSet b then percentEncodeByte b else [Char.ofNat b])

/-- First value in `params` stored under `name` (the inner lookup loop of each
`doit`'s path-substitution pass). -/
def lookupParam (params : List (Str × Str)) (name : Str) : Option Str :=
  (params.find? (fun kv => kv.1 == name)).map (fun kv => kv.2)

/-- The field-clash scan of `doit`: the first name in the call's known
parameter list that also occurs as a key of the `_additional_params` map. -/
def firstClash (known : List Str) (additional : List (Str × Str)) : Option Str :=
  known.find? (fun f => additional.any (fun kv => kv.1 == f))

/-- Path-template substitution used by `JobReportGetCall::doit`: each
`(placeholder, parameter-name)` pair is replaced in order; a missing parameter
is the source's `.expect(...)` panic, modelled as `none`. -/
def substPlain (pairs : List (Str × Str)) (params : List (Str × Str)) (url : Str) :
    Option Str :=
  match pairs with
  | [] => some url
  | fp :: rest =>
    match lookupParam params fp.2 with
    | none => none
    | some v => substPlain rest params (listReplace fp.1 v url)

/-- Path-template substitution used by the `{+param}` call builders
(`MediaDownloadCall`, `ProjectDocumentBatchProcesCall`): a missing parameter
substitutes the empty string, and a template whose second byte is `+` has its
value percent-encoded first. -/
def substEncoded (pairs : List (Str × Str)) (params : List (Str × Str)) (url : Str) :
    Str :=
  pairs.foldl
    (fun u fp =>
      let raw := (lookupParam params fp.2).getD []
      let v := if fp.1.get? 1 == some '+' then percentEncodeDefault raw else raw
      listReplace fp.1 v u)
    url

/-- The parameter-removal block of `doit`: the index of each name is computed
on the unmodified list, then the indices are removed in that order (with the
later removals acting on the already-shortened list, exactly as
`Vec::remove`). -/
def removeParams (names : List Str) (params : List (Str × Str)) :
    List (Str × Str) :=
  let idxs := names.filterMap (fun n => params.findIdx? (fun t => t.1 == n))
  idxs.foldl (fun ps i => ps.eraseIdx i) params

/-! ## The client layer (types shared by every generated `doit`) -/

/-- A `hyper::Error` transport error, opaque to the generated code. -/
abbrev HyperError := Nat

/-- A `yup_oauth2` token-acquisition error, opaque to the generated code. -/
abbrev AuthError := Nat

/-- An HTTP response after the body has been collected into a string
(the `reconstructed_result` of `doit`). -/
structure HttpResponse where
  status : Nat
  body : Str
deriving DecidableEq, Repr

/-- `hyper::StatusCode::is_success`: a 2xx status. -/
def statusIsSuccess (s : Nat) : Bool := 200 ≤ s && s < 300

/-- The server-side error payload of `client::ServerError` /
`client::ErrorResponse`; its contents are opaque to the generated control
flow, which only asks whether a body decodes into it. -/
structure ServerError where
  message : Str
deriving DecidableEq, Repr

/-- `client::ErrorResponse`, the JSON shape Google services use for errors. -/
structure ErrorResponse where
  error : ServerError
deriving DecidableEq, Repr

/-- The `client::Error` enum of the shared client layer, as enumerated in the
crate documentation of both generated modules. -/
inductive ApiError where
  | httpError (e : HyperError)
  | uploadSizeLimitExceeded (size limit : Nat)
  | badRequest (e : ErrorResponse)
  | missingAPIKey
  | missingToken (e : AuthError)
  | cancelled
  | fieldClash (field : Str)
  | jsonDecodeError (body : Str)
  | failure (response : HttpResponse)
deriving DecidableEq, Repr

/-- `client::Retry`: a delegate's answer to an error callback. -/
inductive Retry where
  | abort
  | after (d : Nat)
deriving DecidableEq, Repr

instance {ε α : Type} [DecidableEq ε] [DecidableEq α] : DecidableEq (Except ε α)
  | Except.error x, Except.error y =>
    if h : x = y then isTrue (by rw [h])
    else isFalse (fun hc => h (by injection hc))
  | Except.error x, Except.ok y => isFalse (fun hc => Except.noConfusion hc)
  | Except.ok x, Except.error y => isFalse (fun hc => Except.noConfusion hc)
  | Except.ok x, Except.ok y =>
    if h : x = y then isTrue (by rw [h])
    else isFalse (fun hc => h (by injection hc))

/-- Everything the environment (authenticator, HTTP transport) and the
injected delegate contribute during one iteration of a `doit` retry loop. -/
structure Attempt where
  /-- Result of `authenticator.token(scopes)`. -/
  token : Except AuthError Str
  /-- The delegate's `token(&err)` answer, consulted on auth failure. -/
  dlgToken : Option Str
  /-- Result of `client.request(req)`. -/
  reqResult : Except HyperError HttpResponse
  /-- The delegate's `http_error(&err)` answer. -/
  httpErrorAnswer : Retry
  /-- The delegate's `http_failure(..)` answer. -/
  httpFailureAnswer : Retry
deriving DecidableEq, Repr

/-- `some e` when this iteration fails to obtain a token (auth error and the
delegate supplies none), which makes `doit` return `MissingToken`. -/
def tokenFailure (a : Attempt) : Option AuthError :=
  match a.token with
  | Except.ok _ => none
  | Except.error e =>
    match a.dlgToken with
    | some _ => none
    | none => some e

/-- Observable trace of one execution of a `doit` retry loop.  `result = none`
means the supplied list of attempts was exhausted with the loop still running
(the loop has no bound of its own).  `sent` records the request payload of
every HTTP request actually issued, in order. -/
structure DoitTrace (ρ R : Type) where
  result : Option (Except ApiError (HttpResponse × R))
  attempts : Nat
  tokenRequests : Nat
  sleeps : List Nat
  sent : List ρ
deriving Repr

/-- The empty trace: nothing happened yet. -/
def DoitTrace.empty {ρ R : Type} : DoitTrace ρ R :=
  { result := none, attempts := 0, tokenRequests := 0, sleeps := [], sent := [] }

/-- One `continue` of the loop: a request was issued, the delegate asked for a
retry, the call slept `d`, and the rest of the trace follows. -/
def DoitTrace.retryStep {ρ R : Type} (t : DoitTrace ρ R) (d : Nat) (req : ρ) :
    DoitTrace ρ R :=
  { result := t.result, attempts := t.attempts + 1,
    tokenRequests := t.tokenRequests + 1, sleeps := d :: t.sleeps,
    sent := req :: t.sent }

/-- A terminal iteration that issued one request and returned `r`. -/
def DoitTrace.final {ρ R : Type} (req : ρ) (r : Except ApiError (HttpResponse × R)) :
    DoitTrace ρ R :=
  { result := some r, attempts := 1, tokenRequests := 1, sleeps := [],
    sent := [req] }

/-- The retry loop common to every generated `doit`, parametrised by the
request payload `sentReq` issued on each attempt, the
`json::from_str::<client::ErrorResponse>` decoder, and the action taken on a
2xx response (which is where the call builders differ). -/
def runLoop {ρ R : Type} (sentReq : ρ)
    (decodeErrResp : Str → Option ErrorResponse)
    (onSuccess : HttpResponse → Except ApiError (HttpResponse × R)) :
    List Attempt → DoitTrace ρ R
  | [] => DoitTrace.empty
  | a :: rest =>
    match tokenFailure a with
    | some e =>
      { result := some (Except.error (ApiError.missingToken e)),
        attempts := 0, tokenRequests := 1, sleeps := [], sent := [] }
    | none =>
      match a.reqResult with
      | Except.error err =>
        match a.httpErrorAnswer with
        | Retry.after d =>
          (runLoop sentReq decodeErrResp onSuccess rest).retryStep d sentReq
        | Retry.abort =>
          DoitTrace.final sentReq (Except.error (ApiError.httpError err))
      | Except.ok res =>
        if statusIsSuccess res.status then
          DoitTrace.final sentReq (onSuccess res)
        else
          match a.httpFailureAnswer with
          | Retry.after d =>
            (runLoop sentReq decodeErrResp onSuccess rest).retryStep d sentReq
          | Retry.abort =>
            match decodeErrResp res.body with
            | some serr =>
              DoitTrace.final sentReq (Except.error (ApiError.badRequest serr))
            | none =>
              DoitTrace.final sentReq (Except.error (ApiError.failure res))

/-- The success-path action of the ordinary call builders: decode the body
into the response struct, or fail with `JsonDecodeError` carrying the body. -/
def onSuccessDecode {R : Type} (decodeResp : Str → Option R)
    (res : HttpResponse) : Except ApiError (HttpResponse × R) :=
  match decodeResp res.body with
  | some v => Except.ok (res, v)
  | none => Except.error (ApiError.jsonDecodeError res.body)

/-- The flat error taxonomy the specification describes: transport error,
non-2xx response (`BadRequest`/`Failure`), JSON decode failure, missing OAuth
token, client-side field clash. -/
def inFlatTaxonomy : ApiError → Bool
  | ApiError.httpError _ => true
  | ApiError.badRequest _ => true
  | ApiError.failure _ => true
  | ApiError.jsonDecodeError _ => true
  | ApiError.missingToken _ => true
  | ApiError.fieldClash _ => true
  | _ => false

/-! ## JSON values (the serde_json collaborator's data model) -/

/-- A `serde_json::Value`. -/
inductive JVal where
  | null
  | bool (b : Bool)
  | num (n : Int)
  | str (s : Str)
  | arr (elems : List JVal)
  | obj (fields : List (Str × JVal))

/-- Is this JSON value `null`? -/
def JVal.isNull : JVal → Bool
  | JVal.null => true
  | _ => false

mutual

/-- Modelled from the spec: `client::remove_json_null_values`, which the
generated `doit` applies to the serialized request value so that "all JSON
null values (are) removed from the serialized value"; the function itself
lives in the shared client crate, outside the two generated modules. -/
def removeJsonNullValues : JVal → JVal
  | JVal.obj fields => JVal.obj (removeNullFields fields)
  | JVal.arr elems => JVal.arr (removeNullList elems)
  | v => v

/-- Object branch of `removeJsonNullValues`: drop null-valued entries, clean
the rest. -/
def removeNullFields : List (Str × JVal) → List (Str × JVal)
  | [] => []
  | (k, v) :: rest =>
    if v.isNull then removeNullFields rest
    else (k, removeJsonNullValues v) :: removeNullFields rest

/-- Array branch of `removeJsonNullValues`. -/
def removeNullList : List JVal → List JVal
  | [] => []
  | v :: rest => removeJsonNullValues v :: removeNullList rest

end

/-- JSON string escaping of the serde_json serializer (quote, backslash and
control characters). -/
def escapeJsonChars : Str → Str
  | [] => []
  | c :: rest =>
    (if c = Char.ofNat 34 then [Char.ofNat 92, Char.ofNat 34]
     else if c = Char.ofNat 92 then [Char.ofNat 92, Char.ofNat 92]
     else if c = Char.ofNat 8 then [Char.ofNat 92, 'b']
     else if c = Char.ofNat 9 then [Char.ofNat 92, 't']
     else if c = Char.ofNat 10 then [Char.ofNat 92, 'n']
     else if c = Char.ofNat 12 then [Char.ofNat 92, 'f']
     else if c = Char.ofNat 13 then [Char.ofNat 92, 'r']
     else if c.toNat < 32 then
       [Char.ofNat 92, 'u', '0', '0', hexDigit (c.toNat / 16), hexDigit (c.toNat % 16)]
     else [c]) ++ escapeJsonChars rest

mutual

/-- Compact JSON serialization (`serde_json::to_writer`). -/
def serializeJson : JVal → Str
  | JVal.null => "null".data
  | JVal.bool true => "true".data
  | JVal.bool false => "false".data
  | JVal.num n => (toString n).data
  | JVal.str s => Char.ofNat 34 :: escapeJsonChars s ++ [Char.ofNat 34]
  | JVal.arr elems => '[' :: serializeJsonList elems ++ [']']
  | JVal.obj fields => lbrace :: serializeJsonFields fields ++ [rbrace]

/-- Comma-separated serialization of array elements. -/
def serializeJsonList : List JVal → Str
  | [] => []
  | [v] => serializeJson v
  | v :: rest => serializeJson v ++ ',' :: serializeJsonList rest

/-- Comma-separated serialization of object fields. -/
def serializeJsonFields : List (Str × JVal) → Str
  | [] => []
  | [(k, v)] => Char.ofNat 34 :: escapeJsonChars k ++ [Char.ofNat 34, ':'] ++ serializeJson v
  | (k, v) :: rest =>
    Char.ofNat 34 :: escapeJsonChars k ++ [Char.ofNat 34, ':'] ++ serializeJson v ++
      ',' :: serializeJsonFields rest

end

/-! ## The hub state -/

/-- The string state shared by both generated hubs (`YouTubeReporting<C>` and
documentai's `Document<C>` have these three fields with identical setter
code); the `client`/`auth` fields are external collaborators and do not
appear. -/
structure HubState where
  _user_agent : Str
  _base_url : Str
  _root_url : Str
deriving DecidableEq, Repr

/-- `user_agent`: `mem::replace(&mut self._user_agent, agent_name)` — returns
the previous value together with the updated hub. -/
def HubState.user_agent (h : HubState) (agent_name : Str) : Str × HubState :=
  (h._user_agent, { h with _user_agent := agent_name })

/-- `base_url`: replaces the stored base url, returning the previous one. -/
def HubState.base_url (h : HubState) (new_base_url : Str) : Str × HubState :=
  (h._base_url, { h with _base_url := new_base_url })

/-- `root_url`: replaces the stored root url, returning the previous one. -/
def HubState.root_url (h : HubState) (new_root_url : Str) : Str × HubState :=
  (h._root_url, { h with _root_url := new_root_url })

/-- The hub state produced by `YouTubeReporting::new`. -/
def youTubeReportingNew : HubState :=
  { _user_agent := "google-api-rust-client/1.0.14".data,
    _base_url := "https://youtubereporting.googleapis.com/".data,
    _root_url := "https://youtubereporting.googleapis.com/".data }

/-- The hub state produced by documentai's `Document::new`. -/
def documentNew : HubState :=
  { _user_agent := "google-api-rust-client/1.0.14".data,
    _base_url := "https://documentai.googleapis.com/".data,
    _root_url := "https://documentai.googleapis.com/".data }

/-! ## Schema structs (youtubereporting1)

Each mirrors the Rust struct field for field; every field is an `Option`. -/

/-- `Job`: a job creating reports of a specific type. -/
structure Job where
  create_time : Option String
  expire_time : Option String
  id : Option String
  name : Option String
  report_type_id : Option String
  system_managed : Option Bool
deriving DecidableEq, Repr, Inhabited

/-- `Report`: the metadata of a generated report. -/
structure Report where
  create_time : Option String
  download_url : Option String
  end_time : Option String
  id : Option String
  job_expire_time : Option String
  job_id : Option String
  start_time : Option String
deriving DecidableEq, Repr, Inhabited

/-- `GdataObjectId`. -/
structure GdataObjectId where
  bucket_name : Option String
  generation : Option String
  object_name : Option String
deriving DecidableEq, Repr, Inhabited

/-- `GdataBlobstore2Info`. -/
structure GdataBlobstore2Info where
  blob_generation : Option String
  blob_id : Option String
  download_read_handle : Option String
  read_token : Option String
  upload_metadata_container : Option String
deriving DecidableEq, Repr, Inhabited

/-- `GdataCompositeMedia`. -/
structure GdataCompositeMedia where
  blob_ref : Option String
  blobstore2_info : Option GdataBlobstore2Info
  cosmo_binary_reference : Option String
  crc32c_hash : Option Nat
  inline : Option String
  length : Option String
  md5_hash : Option String
  object_id : Option GdataObjectId
  path : Option String
  reference_type : Option String
  sha1_hash : Option String
deriving DecidableEq, Repr, Inhabited

/-- `GdataContentTypeInfo`. -/
structure GdataContentTypeInfo where
  best_guess : Option String
  from_bytes : Option String
  from_file_name : Option String
  from_header : Option String
  from_url_path : Option String
deriving DecidableEq, Repr, Inhabited

/-- `GdataDiffChecksumsResponse`. -/
structure GdataDiffChecksumsResponse where
  checksums_location : Option GdataCompositeMedia
  chunk_size_bytes : Option String
  object_location : Option GdataCompositeMedia
  object_size_bytes : Option String
  object_version : Option String
deriving DecidableEq, Repr, Inhabited

/-- `GdataDiffDownloadResponse`. -/
structure GdataDiffDownloadResponse where
  object_location : Option GdataCompositeMedia
deriving DecidableEq, Repr, Inhabited

/-- `GdataDiffUploadRequest`. -/
structure GdataDiffUploadRequest where
  checksums_info : Option GdataCompositeMedia
  object_info : Option GdataCompositeMedia
  object_version : Option String
deriving DecidableEq, Repr, Inhabited

/-- `GdataDiffUploadResponse`. -/
structure GdataDiffUploadResponse where
  object_version : Option String
  original_object : Option GdataCompositeMedia
deriving DecidableEq, Repr, Inhabited

/-- `GdataDiffVersionResponse`. -/
structure GdataDiffVersionResponse where
  object_size_bytes : Option String
  object_version : Option String
deriving DecidableEq, Repr, Inhabited

/-- `GdataDownloadParameters`. -/
structure GdataDownloadParameters where
  allow_gzip_compression : Option Bool
  ignore_range : Option Bool
deriving DecidableEq, Repr, Inhabited

/-- `GdataMedia`, the response struct of `MediaDownloadCall`. -/
structure GdataMedia where
  algorithm : Option String
  bigstore_object_ref : Option String
  blob_ref : Option String
  blobstore2_info : Option GdataBlobstore2Info
  composite_media : Option (List GdataCompositeMedia)
  content_type : Option String
  content_type_info : Option GdataContentTypeInfo
  cosmo_binary_reference : Option String
  crc32c_hash : Option Nat
  diff_checksums_response : Option GdataDiffChecksumsResponse
  diff_download_response : Option GdataDiffDownloadResponse
  diff_upload_request : Option GdataDiffUploadRequest
  diff_upload_response : Option GdataDiffUploadResponse
  diff_version_response : Option GdataDiffVersionResponse
  download_parameters : Option GdataDownloadParameters
  filename : Option String
  hash : Option String
  hash_verified : Option Bool
  inline : Option String
  is_potential_retry : Option Bool
  length : Option String
  md5_hash : Option String
  media_id : Option String
  object_id : Option GdataObjectId
  path : Option String
  reference_type : Option String
  sha1_hash : Option String
  sha256_hash : Option String
  timestamp : Option String
  token : Option String
deriving DecidableEq, Repr, Inhabited

/-! ## Schema structs (documentai1_beta2) -/

/-- `GoogleCloudDocumentaiV1beta2Vertex` (i32 coordinates). -/
structure GoogleCloudDocumentaiV1beta2Vertex where
  x : Option Int
  y : Option Int
deriving DecidableEq, Repr, Inhabited

/-- `GoogleCloudDocumentaiV1beta2NormalizedVertex`; the Rust coordinates are
`f32`, modelled as `Float` — no claim depends on float arithmetic. -/
structure GoogleCloudDocumentaiV1beta2NormalizedVertex where
  x : Option Float
  y : Option Float
deriving Repr, Inhabited

/-- `GoogleCloudDocumentaiV1beta2BoundingPoly`. -/
structure GoogleCloudDocumentaiV1beta2BoundingPoly where
  normalized_vertices : Option (List GoogleCloudDocumentaiV1beta2NormalizedVertex)
  vertices : Option (List GoogleCloudDocumentaiV1beta2Vertex)
deriving Repr, Inhabited

/-- `GoogleCloudDocumentaiV1beta2KeyValuePairHint`. -/
structure GoogleCloudDocumentaiV1beta2KeyValuePairHint where
  key : Option String
  value_types : Option (List String)
deriving Repr, Inhabited

/-- `GoogleCloudDocumentaiV1beta2GcsSource`. -/
structure GoogleCloudDocumentaiV1beta2GcsSource where
  uri : Option String
deriving Repr, Inhabited

/-- `GoogleCloudDocumentaiV1beta2GcsDestination`. -/
structure GoogleCloudDocumentaiV1beta2GcsDestination where
  uri : Option String
deriving Repr, Inhabited

/-- `GoogleCloudDocumentaiV1beta2AutoMlParams`. -/
structure GoogleCloudDocumentaiV1beta2AutoMlParams where
  model : Option String
deriving Repr, Inhabited

/-- `GoogleCloudDocumentaiV1beta2EntityExtractionParams`. -/
structure GoogleCloudDocumentaiV1beta2EntityExtractionParams where
  enabled : Option Bool
  model_version : Option String
deriving Repr, Inhabited

/-- `GoogleCloudDocumentaiV1beta2FormExtractionParams`. -/
structure GoogleCloudDocumentaiV1beta2FormExtractionParams where
  enabled : Option Bool
  key_value_pair_hints : Option (List GoogleCloudDocumentaiV1beta2KeyValuePairHint)
  model_version : Option String
deriving Repr, Inhabited

/-- `GoogleCloudDocumentaiV1beta2InputConfig`. -/
structure GoogleCloudDocumentaiV1beta2InputConfig where
  contents : Option String
  gcs_source : Option GoogleCloudDocumentaiV1beta2GcsSource
  mime_type : Option String
deriving Repr, Inhabited

/-- `GoogleCloudDocumentaiV1beta2OcrParams`. -/
structure GoogleCloudDocumentaiV1beta2OcrParams where
  language_hints : Option (List String)
deriving Repr, Inhabited

/-- `GoogleCloudDocumentaiV1beta2OutputConfig`. -/
structure GoogleCloudDocumentaiV1beta2OutputConfig where
  gcs_destination : Option GoogleCloudDocumentaiV1beta2GcsDestination
  pages_per_shard : Option Int
deriving Repr, Inhabited

/-- `GoogleCloudDocumentaiV1beta2TableBoundHint`. -/
structure GoogleCloudDocumentaiV1beta2TableBoundHint where
  bounding_box : Option GoogleCloudDocumentaiV1beta2BoundingPoly
  page_number : Option Int
deriving Repr, Inhabited

/-- `GoogleCloudDocumentaiV1beta2TableExtractionParams`. -/
structure GoogleCloudDocumentaiV1beta2TableExtractionParams where
  enabled : Option Bool
  header_hints : Option (List String)
  model_version : Option String
  table_bound_hints : Option (List GoogleCloudDocumentaiV1beta2TableBoundHint)
deriving Repr, Inhabited

/-- `GoogleCloudDocumentaiV1beta2ProcessDocumentRequest`. -/
structure GoogleCloudDocumentaiV1beta2ProcessDocumentRequest where
  automl_params : Option GoogleCloudDocumentaiV1beta2AutoMlParams
  document_type : Option String
  entity_extraction_params : Option GoogleCloudDocumentaiV1beta2EntityExtractionParams
  form_extraction_params : Option GoogleCloudDocumentaiV1beta2FormExtractionParams
  input_config : Option GoogleCloudDocumentaiV1beta2InputConfig
  ocr_params : Option GoogleCloudDocumentaiV1beta2OcrParams
  output_config : Option GoogleCloudDocumentaiV1beta2OutputConfig
  parent : Option String
  table_extraction_params : Option GoogleCloudDocumentaiV1beta2TableExtractionParams
deriving Repr, Inhabited

/-- `GoogleCloudDocumentaiV1beta2BatchProcessDocumentsRequest`, the request
body of `ProjectDocumentBatchProcesCall`. -/
structure GoogleCloudDocumentaiV1beta2BatchProcessDocumentsRequest where
  requests : Option (List GoogleCloudDocumentaiV1beta2ProcessDocumentRequest)
deriving Repr, Inhabited

/-- `GoogleRpcStatus`; `HashMap<String, String>` is modelled as an
association list. -/
structure GoogleRpcStatus where
  code : Option Int
  details : Option (List (List (String × String)))
  message : Option String
deriving DecidableEq, Repr, Inhabited

/-- `GoogleLongrunningOperation`, the response struct of
`ProjectDocumentBatchProcesCall`. -/
structure GoogleLongrunningOperation where
  done : Option Bool
  error : Option GoogleRpcStatus
  metadata : Option (List (String × String))
  name : Option String
  response : Option (List (String × String))
deriving DecidableEq, Repr, Inhabited

/-! ## Call builders and their `doit` operations -/

/-- The URL string and query-parameter list handed to
`url::Url::parse_with_params` (the url crate is an external collaborator;
`doit`'s own work ends at this call). -/
structure PreparedRequest where
  url : Str
  query : List (Str × Str)
deriving DecidableEq, Repr

/-- One complete execution of a `doit` call: the optional early
`FieldClash` return, the request handed to the URL parser (absent when the
call returned before building it), and the retry-loop trace. -/
structure DoitRun (ρ R : Type) where
  clash : Option Str
  request : Option PreparedRequest
  trace : DoitTrace ρ R
deriving Repr

/-- What `doit` returns to the caller: `none` while the loop is still
running, otherwise the `client::Result`. -/
def DoitRun.outcome {ρ R : Type} (r : DoitRun ρ R) :
    Option (Except ApiError (HttpResponse × R)) :=
  match r.clash with
  | some f => some (Except.error (ApiError.fieldClash f))
  | none => r.trace.result

/-- Builder state of `JobReportGetCall` (the delegate and scopes act through
the `Attempt` environment and the authenticator collaborator). -/
structure JobReportGetCall where
  _job_id : Str
  _report_id : Str
  _on_behalf_of_content_owner : Option Str
  _additional_params : List (Str × Str)
deriving DecidableEq, Repr

/-- The known-parameter list of `JobReportGetCall::doit`'s clash check. -/
def jobReportGetKnownParams : List Str :=
  ["alt".data, "jobId".data, "reportId".data, "onBehalfOfContentOwner".data]

/-- The parameter vector `JobReportGetCall::doit` assembles before building
the URL: the two path parameters, the optional known query parameter, the
additional parameters and `alt=json`. -/
def JobReportGetCall.paramsList (c : JobReportGetCall) : List (Str × Str) :=
  [("jobId".data, c._job_id), ("reportId".data, c._report_id)] ++
    (match c._on_behalf_of_content_owner with
     | some v => [("onBehalfOfContentOwner".data, v)]
     | none => []) ++
    c._additional_params ++ [("alt".data, "json".data)]

/-- The `(placeholder, parameter-name)` pairs of the method's path template. -/
def jobReportGetPathPairs : List (Str × Str) :=
  [("\x7bjobId\x7d".data, "jobId".data), ("\x7breportId\x7d".data, "reportId".data)]

/-- The method's fixed path template, appended to the hub's base url. -/
def jobReportGetPath : Str := "v1/jobs/\x7bjobId\x7d/reports/\x7breportId\x7d".data

/-- The names removed from the parameter list after path substitution. -/
def jobReportGetRemovalNames : List Str := ["reportId".data, "jobId".data]

/-- `JobReportGetCall::doit`.  `decodeErrResp` and `decodeReport` stand for
`serde_json::from_str` at `client::ErrorResponse` and `Report`; `env` supplies
the authenticator/transport/delegate answers of each loop iteration. -/
def JobReportGetCall.doit (c : JobReportGetCall) (hub : HubState)
    (decodeErrResp : Str → Option ErrorResponse)
    (decodeReport : Str → Option Report)
    (env : List Attempt) : DoitRun Unit Report :=
  match firstClash jobReportGetKnownParams c._additional_params with
  | some f => { clash := some f, request := none, trace := DoitTrace.empty }
  | none =>
    match substPlain jobReportGetPathPairs c.paramsList
        (hub._base_url ++ jobReportGetPath) with
    | none => { clash := none, request := none, trace := DoitTrace.empty }
    | some url =>
      { clash := none,
        request := some { url := url, query := removeParams jobReportGetRemovalNames c.paramsList },
        trace := runLoop () decodeErrResp (onSuccessDecode decodeReport) env }

/-- Builder state of `MediaDownloadCall`. -/
structure MediaDownloadCall where
  _resource_name : Str
  _additional_params : List (Str × Str)
deriving DecidableEq, Repr

/-- The known-parameter list of `MediaDownloadCall::doit`'s clash check
(note: `alt` is not listed for this call). -/
def mediaDownloadKnownParams : List Str := ["resourceName".data]

/-- The parameter vector of `MediaDownloadCall::doit` before the `alt` scan:
the path parameter followed by the additional parameters. -/
def MediaDownloadCall.params1 (c : MediaDownloadCall) : List (Str × Str) :=
  ("resourceName".data, c._resource_name) :: c._additional_params

/-- The first `alt` entry the scan of `MediaDownloadCall::doit` stops at. -/
def MediaDownloadCall.altEntry (c : MediaDownloadCall) : Option (Str × Str) :=
  c.params1.find? (fun kv => kv.1 == "alt".data)

/-- `enable_resource_parsing`: false exactly when an `alt` parameter with a
value other than `json` is present. -/
def MediaDownloadCall.enableResourceParsing (c : MediaDownloadCall) : Bool :=
  match c.altEntry with
  | some kv => kv.2 == "json".data
  | none => true

/-- The final parameter vector: `alt=json` is appended when no `alt`
parameter was present (`json_field_missing`). -/
def MediaDownloadCall.paramsList (c : MediaDownloadCall) : List (Str × Str) :=
  if c.altEntry.isNone then c.params1 ++ [("alt".data, "json".data)] else c.params1

/-- The `(placeholder, parameter-name)` pair of the media path template. -/
def mediaDownloadPathPairs : List (Str × Str) :=
  [("\x7b+resourceName\x7d".data, "resourceName".data)]

/-- The media download path template. -/
def mediaDownloadPath : Str := "v1/media/\x7b+resourceName\x7d".data

/-- `MediaDownloadCall::doit`, including the `alt` scan that decides whether
the success body is parsed into `GdataMedia` or a default value returned. -/
def MediaDownloadCall.doit (c : MediaDownloadCall) (hub : HubState)
    (decodeErrResp : Str → Option ErrorResponse)
    (decodeMedia : Str → Option GdataMedia)
    (env : List Attempt) : DoitRun Unit GdataMedia :=
  match firstClash mediaDownloadKnownParams c._additional_params with
  | some f => { clash := some f, request := none, trace := DoitTrace.empty }
  | none =>
    { clash := none,
      request := some
        { url := substEncoded mediaDownloadPathPairs c.paramsList
            (hub._base_url ++ mediaDownloadPath),
          query := removeParams ["resourceName".data] c.paramsList },
      trace := runLoop () decodeErrResp
        (fun res =>
          if c.enableResourceParsing then onSuccessDecode decodeMedia res
          else Except.ok (res, default)) env }

/-- Builder state of `ProjectDocumentBatchProcesCall`. -/
structure ProjectDocumentBatchProcesCall where
  _request : GoogleCloudDocumentaiV1beta2BatchProcessDocumentsRequest
  _parent : Str
  _additional_params : List (Str × Str)

/-- The known-parameter list of `ProjectDocumentBatchProcesCall::doit`'s
clash check. -/
def batchProcessKnownParams : List Str := ["alt".data, "parent".data]

/-- The body-carrying part of an issued HTTP request: the `CONTENT_TYPE` and
`CONTENT_LENGTH` headers and the body bytes (as a string). -/
structure SentRequest where
  contentType : Str
  contentLength : Nat
  body : Str
deriving DecidableEq, Repr

/-- The parameter vector of `ProjectDocumentBatchProcesCall::doit`. -/
def ProjectDocumentBatchProcesCall.paramsList (c : ProjectDocumentBatchProcesCall) :
    List (Str × Str) :=
  ("parent".data, c._parent) :: (c._additional_params ++ [("alt".data, "json".data)])

/-- The `(placeholder, parameter-name)` pair of the batch-process template. -/
def batchProcessPathPairs : List (Str × Str) :=
  [("\x7b+parent\x7d".data, "parent".data)]

/-- The batch-process path template. -/
def batchProcessPath : Str := "v1beta2/\x7b+parent\x7d/documents:batchProcess".data

/-- The request body of `ProjectDocumentBatchProcesCall::doit`: the serde
value of the request struct with all JSON null values removed, serialized;
computed once, before the retry loop. -/
def ProjectDocumentBatchProcesCall.bodyString (c : ProjectDocumentBatchProcesCall)
    (toValue : GoogleCloudDocumentaiV1beta2BatchProcessDocumentsRequest → JVal) : Str :=
  serializeJson (removeJsonNullValues (toValue c._request))

/-- The body-carrying headers and body every attempt of the batch-process
call sends: `Content-Type: application/json` and a `Content-Length` equal to
the byte length of the serialized body. -/
def ProjectDocumentBatchProcesCall.sentRequest (c : ProjectDocumentBatchProcesCall)
    (toValue : GoogleCloudDocumentaiV1beta2BatchProcessDocumentsRequest → JVal) :
    SentRequest :=
  { contentType := "application/json".data,
    contentLength := (strUtf8Bytes (c.bodyString toValue)).length,
    body := c.bodyString toValue }

/-- `ProjectDocumentBatchProcesCall::doit`.  `toValue` stands for serde's
derived `json::value::to_value` on the request struct (an external
collaborator); the request body is serialized once before the loop, and the
in-loop `seek` only rewinds the cursor of the buffer, whose contents every
attempt clones into its request body. -/
def ProjectDocumentBatchProcesCall.doit (c : ProjectDocumentBatchProcesCall)
    (hub : HubState)
    (toValue : GoogleCloudDocumentaiV1beta2BatchProcessDocumentsRequest → JVal)
    (decodeErrResp : Str → Option ErrorResponse)
    (decodeOperation : Str → Option GoogleLongrunningOperation)
    (env : List Attempt) : DoitRun SentRequest GoogleLongrunningOperation :=
  match firstClash batchProcessKnownParams c._additional_params with
  | some f => { clash := some f, request := none, trace := DoitTrace.empty }
  | none =>
    { clash := none,
      request := some
        { url := substEncoded batchProcessPathPairs c.paramsList
            (hub._base_url ++ batchProcessPath),
          query := removeParams ["parent".data] c.paramsList },
      trace := runLoop (c.sentRequest toValue) decodeErrResp
        (onSuccessDecode decodeOperation) env }

/-! ## Claim-side definitions

These restate parts of the specification in its own words, to be compared
with the source-side definitions above. -/

/-- Written from the spec's retry sentence: the delegate opts to retry (with
a backoff duration) exactly when it answers `Retry::After(d)` from
`http_error` after a transport error, or from `http_failure` after a
non-success status; in every other case the loop does not continue. -/
def claimRetryDecision (a : Attempt) : Option Nat :=
  match tokenFailure a with
  | some _ => none
  | none =>
    match a.reqResult with
    | Except.error _ =>
      match a.httpErrorAnswer with
      | Retry.after d => some d
      | Retry.abort => none
    | Except.ok res =>
      if statusIsSuccess res.status then none
      else
        match a.httpFailureAnswer with
        | Retry.after d => some d
        | Retry.abort => none

/-- Written from the spec: when the delegate does not opt to retry, the
corresponding outcome is returned immediately — `MissingToken` without a
request, `HttpError` after a transport error, the success action on a 2xx
status, and `BadRequest`/`Failure` (by whether the body parses as an error
response) otherwise — with no sleep recorded. -/
def claimTerminalTrace {ρ R : Type} (sentReq : ρ)
    (decodeErrResp : Str → Option ErrorResponse)
    (onSuccess : HttpResponse → Except ApiError (HttpResponse × R))
    (a : Attempt) : DoitTrace ρ R :=
  match tokenFailure a with
  | some e =>
    { result := some (Except.error (ApiError.missingToken e)),
      attempts := 0, tokenRequests := 1, sleeps := [], sent := [] }
  | none =>
    match a.reqResult with
    | Except.error err =>
      DoitTrace.final sentReq (Except.error (ApiError.httpError err))
    | Except.ok res =>
      if statusIsSuccess res.status then DoitTrace.final sentReq (onSuccess res)
      else
        match decodeErrResp res.body with
        | some serr => DoitTrace.final sentReq (Except.error (ApiError.badRequest serr))
        | none => DoitTrace.final sentReq (Except.error (ApiError.failure res))

/-- A delegate/environment behaviour whose every iteration hits a transport
error and answers `Retry::After(1)`. -/
def alwaysRetryAttempt : Attempt :=
  { token := Except.ok "tok".data, dlgToken := none,
    reqResult := Except.error 0, httpErrorAnswer := Retry.after 1,
    httpFailureAnswer := Retry.abort }

/-- An iteration that hits a transport error and declines to retry. -/
def abortAttempt : Attempt :=
  { token := Except.ok "tok".data, dlgToken := none,
    reqResult := Except.error 0, httpErrorAnswer := Retry.abort,
    httpFailureAnswer := Retry.abort }

/-- A concrete 2xx response used by witnesses. -/
def okResp : HttpResponse := { status := 200, body := "body".data }

/-- An iteration that obtains a token and receives `okResp`. -/
def okAttempt : Attempt :=
  { token := Except.ok "tok".data, dlgToken := none,
    reqResult := Except.ok okResp, httpErrorAnswer := Retry.abort,
    httpFailureAnswer := Retry.abort }

/-- A string free of the `{` character (the condition under which Rust's
`str::replace` of a `{param}` placeholder touches only the template's own
placeholders). -/
def noBrace (s : Str) : Bool := s.all (fun ch => ch != lbrace)

example : containsSub "ab".data "xxabz".data = true := by decide
example : (("jobId".data : Str) == "reportId".data) = false := by decide
example : listReplace "ab".data "Z".data "xabab".data = "xZZ".data := by decide
example : percentEncodeDefault "a b".data = "a%20b".data := by decide

/-! ## Helper lemmas about the retry loop -/

lemma onSuccessDecode_error {R : Type} (dr : Str → Option R) (res : HttpResponse)
    (e : ApiError) (h : onSuccessDecode dr res = Except.error e) :
    e = ApiError.jsonDecodeError res.body := by
  rcases hd : dr res.body with _ | v <;>
    simp only [onSuccessDecode, hd] at h
  · exact (Except.error.injEq _ _).mp h |>.symm
  · exact absurd h (by simp)

lemma runLoop_error_in_taxonomy {ρ R : Type} (sentReq : ρ)
    (de : Str → Option ErrorResponse)
    (os : HttpResponse → Except ApiError (HttpResponse × R))
    (hos : ∀ res e, os res = Except.error e → inFlatTaxonomy e = true) :
    ∀ (env : List Attempt) (e : ApiError),
      (runLoop sentReq de os env).result = some (Except.error e) →
      inFlatTaxonomy e = true := by
  intro env
  induction env with
  | nil =>
    intro e h
    simp [runLoop, DoitTrace.empty] at h
  | cons a rest ih =>
    intro e h
    simp only [runLoop] at h
    rcases h1 : tokenFailure a with _ | e' <;> simp only [h1] at h
    · rcases h2 : a.reqResult with err | res <;> simp only [h2] at h
      · rcases h3 : a.httpErrorAnswer with _ | d <;> simp only [h3] at h
        · simp only [DoitTrace.final] at h
          obtain rfl : ApiError.httpError err = e := by
            have := (Option.some.injEq _ _).mp h
            exact (Except.error.injEq _ _).mp this
          rfl
        · simp only [DoitTrace.retryStep] at h
          exact ih e h
      · by_cases h4 : statusIsSuccess res.status = true
        · simp only [h4, if_true, DoitTrace.final] at h
          have hos' := (Option.some.injEq _ _).mp h
          exact hos res e hos'
        · simp only [Bool.not_eq_true] at h4
          simp only [h4, Bool.false_eq_true, if_false] at h
          rcases h5 : a.httpFailureAnswer with _ | d <;> simp only [h5] at h
          · rcases h6 : de res.body with _ | serr <;>
              simp only [h6, DoitTrace.final] at h
            · obtain rfl : ApiError.failure res = e := by
                have := (Option.some.injEq _ _).mp h
                exact (Except.error.injEq _ _).mp this
              rfl
            · obtain rfl : ApiError.badRequest serr = e := by
                have := (Option.some.injEq _ _).mp h
                exact (Except.error.injEq _ _).mp this
              rfl
          · simp only [DoitTrace.retryStep] at h
            exact ih e h
    · obtain rfl : ApiError.missingToken e' = e := by
        have := (Option.some.injEq _ _).mp h
        exact (Except.error.injEq _ _).mp this
      rfl

lemma runLoop_sent_const {ρ R : Type} (sentReq : ρ)
    (de : Str → Option ErrorResponse)
    (os : HttpResponse → Except ApiError (HttpResponse × R)) :
    ∀ (env : List Attempt) (x : ρ),
      x ∈ (runLoop sentReq de os env).sent → x = sentReq := by
  intro env
  induction env with
  | nil =>
    intro x h
    simp [runLoop, DoitTrace.empty] at h
  | cons a rest ih =>
    intro x h
    simp only [runLoop] at h
    rcases h1 : tokenFailure a with _ | e' <;> simp only [h1] at h
    · rcases h2 : a.reqResult with err | res <;> simp only [h2] at h
      · rcases h3 : a.httpErrorAnswer with _ | d <;> simp only [h3] at h
        · simp only [DoitTrace.final, List.mem_singleton] at h
          exact h
        · simp only [DoitTrace.retryStep, List.mem_cons] at h
          rcases h with rfl | h
          · rfl
          · exact ih x h
      · by_cases h4 : statusIsSuccess res.status = true
        · simp only [h4, if_true, DoitTrace.final, List.mem_singleton] at h
          exact h
        · simp only [Bool.not_eq_true] at h4
          simp only [h4, Bool.false_eq_true, if_false] at h
          rcases h5 : a.httpFailureAnswer with _ | d <;> simp only [h5] at h
          · rcases h6 : de res.body with _ | serr <;>
              simp only [h6, DoitTrace.final, List.mem_singleton] at h
            · exact h
            · exact h
          · simp only [DoitTrace.retryStep, List.mem_cons] at h
            rcases h with rfl | h
            · rfl
            · exact ih x h
    · simp at h

/-! ## Characterisations of the three `doit` operations -/

lemma jobReportGet_doit_clash (c : JobReportGetCall) (hub : HubState) (de) (dr)
    (env : List Attempt) (f : Str)
    (hfc : firstClash jobReportGetKnownParams c._additional_params = some f) :
    c.doit hub de dr env =
      { clash := some f, request := none, trace := DoitTrace.empty } := by
  unfold JobReportGetCall.doit
  rw [hfc]

lemma jobReportGet_substPlain (c : JobReportGetCall) (u : Str) :
    substPlain jobReportGetPathPairs c.paramsList u =
      some (listReplace "\x7breportId\x7d".data c._report_id
        (listReplace "\x7bjobId\x7d".data c._job_id u)) := rfl

lemma jobReportGet_removeParams (c : JobReportGetCall) :
    removeParams jobReportGetRemovalNames c.paramsList =
      (match c._on_behalf_of_content_owner with
       | some v => [("onBehalfOfContentOwner".data, v)]
       | none => []) ++
        c._additional_params ++ [("alt".data, "json".data)] := rfl

lemma jobReportGet_doit_noclash (c : JobReportGetCall) (hub : HubState) (de) (dr)
    (env : List Attempt)
    (hfc : firstClash jobReportGetKnownParams c._additional_params = none) :
    c.doit hub de dr env =
      { clash := none,
        request := some
          { url := listReplace "\x7breportId\x7d".data c._report_id
              (listReplace "\x7bjobId\x7d".data c._job_id
                (hub._base_url ++ jobReportGetPath)),
            query := removeParams jobReportGetRemovalNames c.paramsList },
        trace := runLoop () de (onSuccessDecode dr) env } := by
  unfold JobReportGetCall.doit
  rw [hfc, jobReportGet_substPlain]

lemma mediaDownload_doit_clash (c : MediaDownloadCall) (hub : HubState) (de) (dm)
    (env : List Attempt) (f : Str)
    (hfc : firstClash mediaDownloadKnownParams c._additional_params = some f) :
    c.doit hub de dm env =
      { clash := some f, request := none, trace := DoitTrace.empty } := by
  unfold MediaDownloadCall.doit
  rw [hfc]

lemma mediaDownload_doit_noclash (c : MediaDownloadCall) (hub : HubState) (de) (dm)
    (env : List Attempt)
    (hfc : firstClash mediaDownloadKnownParams c._additional_params = none) :
    c.doit hub de dm env =
      { clash := none,
        request := some
          { url := substEncoded mediaDownloadPathPairs c.paramsList
              (hub._base_url ++ mediaDownloadPath),
            query := removeParams ["resourceName".data] c.paramsList },
        trace := runLoop () de
          (fun res =>
            if c.enableResourceParsing then onSuccessDecode dm res
            else Except.ok (res, default)) env } := by
  unfold MediaDownloadCall.doit
  rw [hfc]

lemma batchProcess_doit_clash (c : ProjectDocumentBatchProcesCall) (hub : HubState)
    (tv) (de) (dOp) (env : List Attempt) (f : Str)
    (hfc : firstClash batchProcessKnownParams c._additional_params = some f) :
    c.doit hub tv de dOp env =
      { clash := some f, request := none, trace := DoitTrace.empty } := by
  unfold ProjectDocumentBatchProcesCall.doit
  rw [hfc]

lemma batchProcess_doit_noclash (c : ProjectDocumentBatchProcesCall) (hub : HubState)
    (tv) (de) (dOp) (env : List Attempt)
    (hfc : firstClash batchProcessKnownParams c._additional_params = none) :
    c.doit hub tv de dOp env =
      { clash := none,
        request := some
          { url := substEncoded batchProcessPathPairs c.paramsList
              (hub._base_url ++ batchProcessPath),
            query := removeParams ["parent".data] c.paramsList },
        trace := runLoop (c.sentRequest tv) de (onSuccessDecode dOp) env } := by
  unfold ProjectDocumentBatchProcesCall.doit
  rw [hfc]

/-! ## C1: the flat error taxonomy -/

/-- C1: every error a call builder's `doit` returns to the caller is one of
the flat taxonomy — `HttpError`, `BadRequest`, `Failure`, `JsonDecodeError`,
`MissingToken` or `FieldClash` — for `JobReportGetCall`, `MediaDownloadCall`
and `ProjectDocumentBatchProcesCall` alike; the other `client::Error`
variants are never produced and no recovery happens beyond the
delegate-driven retry. -/
theorem doit_error_taxonomy :
    (∀ (c : JobReportGetCall) (hub : HubState) de dr env (e : ApiError),
        (c.doit hub de dr env).outcome = some (Except.error e) →
        inFlatTaxonomy e = true) ∧
    (∀ (c : MediaDownloadCall) (hub : HubState) de dm env (e : ApiError),
        (c.doit hub de dm env).outcome = some (Except.error e) →
        inFlatTaxonomy e = true) ∧
    (∀ (c : ProjectDocumentBatchProcesCall) (hub : HubState) tv de dOp env
        (e : ApiError),
        (c.doit hub tv de dOp env).outcome = some (Except.error e) →
        inFlatTaxonomy e = true) := by
  refine ⟨?_, ?_, ?_⟩
  · intro c hub de dr env e h
    rcases hfc : firstClash jobReportGetKnownParams c._additional_params with _ | f
    · rw [jobReportGet_doit_noclash c hub de dr env hfc] at h
      simp only [DoitRun.outcome] at h
      refine runLoop_error_in_taxonomy _ _ _ ?_ env e h
      intro res e' he
      obtain rfl := onSuccessDecode_error dr res e' he
      rfl
    · rw [jobReportGet_doit_clash c hub de dr env f hfc] at h
      simp only [DoitRun.outcome] at h
      obtain rfl := (Except.error.injEq _ _).mp ((Option.some.injEq _ _).mp h)
      rfl
  · intro c hub de dm env e h
    rcases hfc : firstClash mediaDownloadKnownParams c._additional_params with _ | f
    · rw [mediaDownload_doit_noclash c hub de dm env hfc] at h
      simp only [DoitRun.outcome] at h
      refine runLoop_error_in_taxonomy _ _ _ ?_ env e h
      intro res e' he
      cases hb : c.enableResourceParsing
      · rw [hb] at he
        simp only [Bool.false_eq_true, if_false] at he
        exact absurd he (by simp)
      · rw [hb] at he
        simp only [if_true] at he
        obtain rfl := onSuccessDecode_error dm res e' he
        rfl
    · rw [mediaDownload_doit_clash c hub de dm env f hfc] at h
      simp only [DoitRun.outcome] at h
      obtain rfl := (Except.error.injEq _ _).mp ((Option.some.injEq _ _).mp h)
      rfl
  · intro c hub tv de dOp env e h
    rcases hfc : firstClash batchProcessKnownParams c._additional_params with _ | f
    · rw [batchProcess_doit_noclash c hub tv de dOp env hfc] at h
      simp only [DoitRun.outcome] at h
      refine runLoop_error_in_taxonomy _ _ _ ?_ env e h
      intro res e' he
      obtain rfl := onSuccessDecode_error dOp res e' he
      rfl
    · rw [batchProcess_doit_clash c hub tv de dOp env f hfc] at h
      simp only [DoitRun.outcome] at h
      obtain rfl := (Except.error.injEq _ _).mp ((Option.some.injEq _ _).mp h)
      rfl

/-- Witness for C1: a concrete erroring run (a field clash on `alt`) whose
returned error the theorem places in the taxonomy. -/
theorem doit_error_taxonomy_witness :
    ((⟨"j1".data, "r1".data, none, [("alt".data, "x".data)]⟩ : JobReportGetCall).doit
        youTubeReportingNew (fun _ => none) (fun _ => none) []).outcome =
      some (Except.error (ApiError.fieldClash "alt".data)) ∧
    inFlatTaxonomy (ApiError.fieldClash "alt".data) = true :=
  ⟨by decide,
    doit_error_taxonomy.1
      (⟨"j1".data, "r1".data, none, [("alt".data, "x".data)]⟩ : JobReportGetCall)
      youTubeReportingNew (fun _ => none) (fun _ => none) []
      (ApiError.fieldClash "alt".data) (by decide)⟩

/-! ## C5: the field clash is checked first -/

/-- C5: when an additional parameter's name equals one of the call's known
parameter names, `doit` returns `FieldClash` with that (first clashing) name,
acquires no token, issues no HTTP request, and never builds the request
URL. -/
theorem doit_field_clash_early_return :
    (∀ (c : JobReportGetCall) (hub : HubState) de dr env (f : Str),
        firstClash jobReportGetKnownParams c._additional_params = some f →
        (c.doit hub de dr env).outcome =
            some (Except.error (ApiError.fieldClash f)) ∧
          (c.doit hub de dr env).trace.attempts = 0 ∧
          (c.doit hub de dr env).trace.tokenRequests = 0 ∧
          (c.doit hub de dr env).trace.sent = [] ∧
          (c.doit hub de dr env).request = none) ∧
    (∀ (c : MediaDownloadCall) (hub : HubState) de dm env (f : Str),
        firstClash mediaDownloadKnownParams c._additional_params = some f →
        (c.doit hub de dm env).outcome =
            some (Except.error (ApiError.fieldClash f)) ∧
          (c.doit hub de dm env).trace.attempts = 0 ∧
          (c.doit hub de dm env).trace.tokenRequests = 0 ∧
          (c.doit hub de dm env).trace.sent = [] ∧
          (c.doit hub de dm env).request = none) ∧
    (∀ (c : ProjectDocumentBatchProcesCall) (hub : HubState) tv de dOp env (f : Str),
        firstClash batchProcessKnownParams c._additional_params = some f →
        (c.doit hub tv de dOp env).outcome =
            some (Except.error (ApiError.fieldClash f)) ∧
          (c.doit hub tv de dOp env).trace.attempts = 0 ∧
          (c.doit hub tv de dOp env).trace.tokenRequests = 0 ∧
          (c.doit hub tv de dOp env).trace.sent = [] ∧
          (c.doit hub tv de dOp env).request = none) := by
  refine ⟨?_, ?_, ?_⟩
  · intro c hub de dr env f hfc
    rw [jobReportGet_doit_clash c hub de dr env f hfc]
    exact ⟨rfl, rfl, rfl, rfl, rfl⟩
  · intro c hub de dm env f hfc
    rw [mediaDownload_doit_clash c hub de dm env f hfc]
    exact ⟨rfl, rfl, rfl, rfl, rfl⟩
  · intro c hub tv de dOp env f hfc
    rw [batchProcess_doit_clash c hub tv de dOp env f hfc]
    exact ⟨rfl, rfl, rfl, rfl, rfl⟩

/-- Witness for C5: a concrete call whose additional parameters set the
known path parameter `jobId`. -/
theorem doit_field_clash_early_return_witness :
    firstClash jobReportGetKnownParams [("jobId".data, "x".data)] =
        some "jobId".data ∧
    ((JobReportGetCall.mk "j1".data "r1".data none [("jobId".data, "x".data)]).doit
        youTubeReportingNew (fun _ => none) (fun _ => none) []).outcome =
      some (Except.error (ApiError.fieldClash "jobId".data)) :=
  ⟨by decide,
    (doit_field_clash_early_return.1
      (JobReportGetCall.mk "j1".data "r1".data none [("jobId".data, "x".data)])
      youTubeReportingNew (fun _ => none) (fun _ => none) [] "jobId".data
      (by decide)).1⟩

/-! ## C7: schema structs are all-optional records -/

/-- C7: the schema structs are optional-field records without invariants:
the all-`none` value is the default, and any combination of field values
yields a valid instance (shown for `Job`, `Report` and `BoundingPoly`, the
structs the specification names). -/
theorem schema_structs_all_optional :
    ((default : Job) =
      { create_time := none, expire_time := none, id := none, name := none,
        report_type_id := none, system_managed := none }) ∧
    ((default : Report) =
      { create_time := none, download_url := none, end_time := none, id := none,
        job_expire_time := none, job_id := none, start_time := none }) ∧
    ((default : GoogleCloudDocumentaiV1beta2BoundingPoly) =
      { normalized_vertices := none, vertices := none }) ∧
    (∀ f1 f2 f3 f4 f5 f6, ∃ j : Job,
        j.create_time = f1 ∧ j.expire_time = f2 ∧ j.id = f3 ∧ j.name = f4 ∧
        j.report_type_id = f5 ∧ j.system_managed = f6) ∧
    (∀ f1 f2 f3 f4 f5 f6 f7, ∃ r : Report,
        r.create_time = f1 ∧ r.download_url = f2 ∧ r.end_time = f3 ∧ r.id = f4 ∧
        r.job_expire_time = f5 ∧ r.job_id = f6 ∧ r.start_time = f7) ∧
    (∀ g1 g2, ∃ b : GoogleCloudDocumentaiV1beta2BoundingPoly,
        b.normalized_vertices = g1 ∧ b.vertices = g2) :=
  ⟨rfl, rfl, rfl,
    fun f1 f2 f3 f4 f5 f6 => ⟨⟨f1, f2, f3, f4, f5, f6⟩, rfl, rfl, rfl, rfl, rfl, rfl⟩,
    fun f1 f2 f3 f4 f5 f6 f7 =>
      ⟨⟨f1, f2, f3, f4, f5, f6, f7⟩, rfl, rfl, rfl, rfl, rfl, rfl, rfl⟩,
    fun g1 g2 => ⟨⟨g1, g2⟩, rfl, rfl⟩⟩

/-! ## C10: the hub setters replace and return the previous value -/

/-- C10: each hub setter stores the new value and returns the previously
stored one; called twice with `a` then `b` it returns the initial value and
then `a`, leaves the field at `b`, and does not touch the other two fields —
and the initial values are the documented defaults for both hubs. -/
theorem hub_setters_replace_semantics :
    (∀ (h : HubState) (a b : Str),
        (h.user_agent a).1 = h._user_agent ∧
        ((h.user_agent a).2.user_agent b).1 = a ∧
        ((h.user_agent a).2.user_agent b).2 =
          { _user_agent := b, _base_url := h._base_url, _root_url := h._root_url }) ∧
    (∀ (h : HubState) (a b : Str),
        (h.base_url a).1 = h._base_url ∧
        ((h.base_url a).2.base_url b).1 = a ∧
        ((h.base_url a).2.base_url b).2 =
          { _user_agent := h._user_agent, _base_url := b, _root_url := h._root_url }) ∧
    (∀ (h : HubState) (a b : Str),
        (h.root_url a).1 = h._root_url ∧
        ((h.root_url a).2.root_url b).1 = a ∧
        ((h.root_url a).2.root_url b).2 =
          { _user_agent := h._user_agent, _base_url := h._base_url, _root_url := b }) ∧
    youTubeReportingNew._user_agent = "google-api-rust-client/1.0.14".data ∧
    youTubeReportingNew._base_url = "https://youtubereporting.googleapis.com/".data ∧
    youTubeReportingNew._root_url = "https://youtubereporting.googleapis.com/".data ∧
    documentNew._user_agent = "google-api-rust-client/1.0.14".data ∧
    documentNew._base_url = "https://documentai.googleapis.com/".data ∧
    documentNew._root_url = "https://documentai.googleapis.com/".data :=
  ⟨fun _ _ _ => ⟨rfl, rfl, rfl⟩, fun _ _ _ => ⟨rfl, rfl, rfl⟩,
    fun _ _ _ => ⟨rfl, rfl, rfl⟩, rfl, rfl, rfl, rfl, rfl, rfl⟩

/-! ## C2: one loop iteration, the retry condition and the sleep -/

/-- C2: a loop iteration re-issues the request (the loop continues) exactly
when the claim-side `claimRetryDecision` — the delegate answering
`Retry::After(d)` from `http_error` after a transport error or from
`http_failure` after a non-success status — yields a duration `d`; the call
then sleeps exactly `d` before the next attempt, and otherwise the iteration
returns immediately with the corresponding outcome and no sleep
(`claimTerminalTrace`). -/
theorem doit_retry_loop_step {ρ R : Type} (sentReq : ρ)
    (de : Str → Option ErrorResponse)
    (os : HttpResponse → Except ApiError (HttpResponse × R))
    (a : Attempt) (rest : List Attempt) :
    runLoop sentReq de os (a :: rest) =
      match claimRetryDecision a with
      | some d => (runLoop sentReq de os rest).retryStep d sentReq
      | none => claimTerminalTrace sentReq de os a := by
  rcases h1 : tokenFailure a with _ | e
  · rcases h2 : a.reqResult with err | res
    · rcases h3 : a.httpErrorAnswer with _ | d <;>
        simp only [runLoop, claimRetryDecision, claimTerminalTrace, h1, h2, h3]
    · by_cases h4 : statusIsSuccess res.status = true
      · simp only [runLoop, claimRetryDecision, claimTerminalTrace, h1, h2, h4, if_true]
      · simp only [Bool.not_eq_true] at h4
        rcases h5 : a.httpFailureAnswer with _ | d
        · rcases h6 : de res.body with _ | serr <;>
            simp only [runLoop, claimRetryDecision, claimTerminalTrace, h1, h2, h4,
              Bool.false_eq_true, if_false, h5, h6]
        · simp only [runLoop, claimRetryDecision, claimTerminalTrace, h1, h2, h4,
            Bool.false_eq_true, if_false, h5]
  · simp only [runLoop, claimRetryDecision, claimTerminalTrace, h1]

/-! ## C3: the loop is not bounded (corrected) -/

lemma runLoop_replicate_retry {ρ R : Type} (sentReq : ρ)
    (de : Str → Option ErrorResponse)
    (os : HttpResponse → Except ApiError (HttpResponse × R)) :
    ∀ n : Nat,
      runLoop sentReq de os (List.replicate n alwaysRetryAttempt) =
        { result := none, attempts := n, tokenRequests := n,
          sleeps := List.replicate n 1, sent := List.replicate n sentReq } := by
  intro n
  induction n with
  | zero => rfl
  | succ n ih =>
    have step : runLoop sentReq de os
        (alwaysRetryAttempt :: List.replicate n alwaysRetryAttempt) =
        (runLoop sentReq de os (List.replicate n alwaysRetryAttempt)).retryStep
          1 sentReq := rfl
    rw [List.replicate_succ, step, ih]
    simp [DoitTrace.retryStep, List.replicate_succ]

lemma runLoop_replicate_retry_abort {ρ R : Type} (sentReq : ρ)
    (de : Str → Option ErrorResponse)
    (os : HttpResponse → Except ApiError (HttpResponse × R)) :
    ∀ n : Nat,
      runLoop sentReq de os
          (List.replicate n alwaysRetryAttempt ++ [abortAttempt]) =
        { result := some (Except.error (ApiError.httpError 0)),
          attempts := n + 1, tokenRequests := n + 1,
          sleeps := List.replicate n 1,
          sent := List.replicate (n + 1) sentReq } := by
  intro n
  induction n with
  | zero => rfl
  | succ n ih =>
    have step : runLoop sentReq de os
        (alwaysRetryAttempt :: (List.replicate n alwaysRetryAttempt ++ [abortAttempt])) =
        (runLoop sentReq de os
          (List.replicate n alwaysRetryAttempt ++ [abortAttempt])).retryStep
          1 sentReq := rfl
    rw [List.replicate_succ, List.cons_append, step, ih]
    simp [DoitTrace.retryStep, List.replicate_succ]

/-- Counterexample to C3 as stated: there is no fixed finite bound on the
number of request attempts a `doit` execution performs — a delegate that
keeps answering `Retry::After` drives the loop past any bound. -/
theorem doit_attempts_not_bounded :
    ¬ ∃ N : Nat, ∀ env : List Attempt,
      ((JobReportGetCall.mk "j1".data "r1".data none []).doit youTubeReportingNew
          (fun _ => none) (fun _ => none) env).trace.attempts ≤ N := by
  rintro ⟨N, hN⟩
  have h := hN (List.replicate (N + 1) alwaysRetryAttempt)
  have ht : ((JobReportGetCall.mk "j1".data "r1".data none []).doit
      youTubeReportingNew (fun _ => none) (fun _ => none)
      (List.replicate (N + 1) alwaysRetryAttempt)).trace =
      runLoop () (fun _ => none) (onSuccessDecode (fun _ => none))
        (List.replicate (N + 1) alwaysRetryAttempt) := rfl
  rw [ht, runLoop_replicate_retry] at h
  simp at h

/-- C3 amended: the number of attempts is delegate-controlled, not fixed —
after `k` consecutive `Retry::After` answers `doit` has issued `k` requests
and is still looping (no result), and when the delegate then declines, it
terminates having issued exactly `k + 1` requests, having slept once per
retry. -/
theorem doit_attempts_delegate_controlled :
    ∀ k : Nat,
      ((JobReportGetCall.mk "j1".data "r1".data none []).doit youTubeReportingNew
          (fun _ => none) (fun _ => none)
          (List.replicate k alwaysRetryAttempt)).trace.result = none ∧
      ((JobReportGetCall.mk "j1".data "r1".data none []).doit youTubeReportingNew
          (fun _ => none) (fun _ => none)
          (List.replicate k alwaysRetryAttempt)).trace.attempts = k ∧
      ((JobReportGetCall.mk "j1".data "r1".data none []).doit youTubeReportingNew
          (fun _ => none) (fun _ => none)
          (List.replicate k alwaysRetryAttempt ++ [abortAttempt])).trace.result =
        some (Except.error (ApiError.httpError 0)) ∧
      ((JobReportGetCall.mk "j1".data "r1".data none []).doit youTubeReportingNew
          (fun _ => none) (fun _ => none)
          (List.replicate k alwaysRetryAttempt ++ [abortAttempt])).trace.attempts =
        k + 1 ∧
      ((JobReportGetCall.mk "j1".data "r1".data none []).doit youTubeReportingNew
          (fun _ => none) (fun _ => none)
          (List.replicate k alwaysRetryAttempt ++ [abortAttempt])).trace.sleeps =
        List.replicate k 1 := by
  intro k
  have ht : ∀ env, ((JobReportGetCall.mk "j1".data "r1".data none []).doit
      youTubeReportingNew (fun _ => none) (fun _ => none) env).trace =
      runLoop () (fun _ => none) (onSuccessDecode (fun _ => none)) env :=
    fun _ => rfl
  refine ⟨?_, ?_, ?_, ?_, ?_⟩ <;>
    rw [ht] <;>
    first
      | rw [runLoop_replicate_retry]
      | rw [runLoop_replicate_retry_abort]

/-! ## C6: the success path decodes the body -/

lemma runLoop_success {ρ R : Type} (sentReq : ρ)
    (de : Str → Option ErrorResponse)
    (os : HttpResponse → Except ApiError (HttpResponse × R))
    (a : Attempt) (rest : List Attempt) (res : HttpResponse)
    (h1 : tokenFailure a = none) (h2 : a.reqResult = Except.ok res)
    (h3 : statusIsSuccess res.status = true) :
    runLoop sentReq de os (a :: rest) = DoitTrace.final sentReq (os res) := by
  simp only [runLoop, h1, h2, h3, if_true]

/-- C6: on a 2xx response, `doit` decodes the body into the response struct
and returns `Ok` of the (response, struct) pair, or `JsonDecodeError`
carrying the body when decoding fails — for `JobReportGetCall` and
`ProjectDocumentBatchProcesCall`. -/
theorem doit_success_json_decode :
    (∀ (c : JobReportGetCall) (hub : HubState) de dr (a : Attempt) rest
        (res : HttpResponse),
        firstClash jobReportGetKnownParams c._additional_params = none →
        tokenFailure a = none →
        a.reqResult = Except.ok res →
        statusIsSuccess res.status = true →
        (∀ v, dr res.body = some v →
            (c.doit hub de dr (a :: rest)).outcome = some (Except.ok (res, v))) ∧
        (dr res.body = none →
            (c.doit hub de dr (a :: rest)).outcome =
              some (Except.error (ApiError.jsonDecodeError res.body)))) ∧
    (∀ (c : ProjectDocumentBatchProcesCall) (hub : HubState) tv de dOp
        (a : Attempt) rest (res : HttpResponse),
        firstClash batchProcessKnownParams c._additional_params = none →
        tokenFailure a = none →
        a.reqResult = Except.ok res →
        statusIsSuccess res.status = true →
        (∀ v, dOp res.body = some v →
            (c.doit hub tv de dOp (a :: rest)).outcome = some (Except.ok (res, v))) ∧
        (dOp res.body = none →
            (c.doit hub tv de dOp (a :: rest)).outcome =
              some (Except.error (ApiError.jsonDecodeError res.body)))) := by
  constructor
  · intro c hub de dr a rest res hfc h1 h2 h3
    rw [jobReportGet_doit_noclash c hub de dr (a :: rest) hfc]
    simp only [DoitRun.outcome]
    rw [runLoop_success () de _ a rest res h1 h2 h3]
    constructor
    · intro v hv
      simp [DoitTrace.final, onSuccessDecode, hv]
    · intro hv
      simp [DoitTrace.final, onSuccessDecode, hv]
  · intro c hub tv de dOp a rest res hfc h1 h2 h3
    rw [batchProcess_doit_noclash c hub tv de dOp (a :: rest) hfc]
    simp only [DoitRun.outcome]
    rw [runLoop_success (c.sentRequest tv) de _ a rest res h1 h2 h3]
    constructor
    · intro v hv
      simp [DoitTrace.final, onSuccessDecode, hv]
    · intro hv
      simp [DoitTrace.final, onSuccessDecode, hv]

/-- Witness for C6: a concrete 2xx run whose body decodes to the default
`Report`. -/
theorem doit_success_json_decode_witness :
    statusIsSuccess okResp.status = true ∧
    ((JobReportGetCall.mk "j1".data "r1".data none []).doit youTubeReportingNew
        (fun _ => none) (fun _ => some (default : Report)) [okAttempt]).outcome =
      some (Except.ok (okResp, (default : Report))) :=
  ⟨by decide,
    (doit_success_json_decode.1 (JobReportGetCall.mk "j1".data "r1".data none [])
        youTubeReportingNew (fun _ => none) (fun _ => some (default : Report))
        okAttempt [] okResp (by decide) (by decide) rfl (by decide)).1
      (default : Report) rfl⟩

/-! ## C9: the media download `alt` handling -/

lemma mediaDownload_altEntry (c : MediaDownloadCall) :
    c.altEntry = c._additional_params.find? (fun kv => kv.1 == "alt".data) := rfl

lemma mediaDownload_removeParams_noAlt (c : MediaDownloadCall) :
    removeParams ["resourceName".data] c.params1 = c._additional_params := rfl

lemma mediaDownload_removeParams_altAdded (c : MediaDownloadCall) :
    removeParams ["resourceName".data] (c.params1 ++ [("alt".data, "json".data)]) =
      c._additional_params ++ [("alt".data, "json".data)] := rfl

/-- C9: in `MediaDownloadCall::doit`, an additional `alt` parameter with a
value other than `json` disables body parsing — the success result pairs the
response with the default `GdataMedia` — while `alt` absent has `alt=json`
appended to the query and only an (explicit or added) `alt=json` leads to
JSON-decoding the body into `GdataMedia`. -/
theorem media_download_alt_handling :
    ∀ (c : MediaDownloadCall) (hub : HubState) de dm (a : Attempt) rest
      (res : HttpResponse),
      firstClash mediaDownloadKnownParams c._additional_params = none →
      tokenFailure a = none →
      a.reqResult = Except.ok res →
      statusIsSuccess res.status = true →
      (∀ p, c._additional_params.find? (fun kv => kv.1 == "alt".data) = some p →
          (p.2 ≠ "json".data →
            (c.doit hub de dm (a :: rest)).outcome =
                some (Except.ok (res, (default : GdataMedia))) ∧
            (c.doit hub de dm (a :: rest)).request.map PreparedRequest.query =
              some c._additional_params) ∧
          (p.2 = "json".data →
            (c.doit hub de dm (a :: rest)).request.map PreparedRequest.query =
              some c._additional_params ∧
            (∀ v, dm res.body = some v →
                (c.doit hub de dm (a :: rest)).outcome = some (Except.ok (res, v))) ∧
            (dm res.body = none →
                (c.doit hub de dm (a :: rest)).outcome =
                  some (Except.error (ApiError.jsonDecodeError res.body))))) ∧
      (c._additional_params.find? (fun kv => kv.1 == "alt".data) = none →
          (c.doit hub de dm (a :: rest)).request.map PreparedRequest.query =
            some (c._additional_params ++ [("alt".data, "json".data)]) ∧
          (∀ v, dm res.body = some v →
              (c.doit hub de dm (a :: rest)).outcome = some (Except.ok (res, v))) ∧
          (dm res.body = none →
              (c.doit hub de dm (a :: rest)).outcome =
                some (Except.error (ApiError.jsonDecodeError res.body)))) := by
  intro c hub de dm a rest res hfc h1 h2 h3
  rw [mediaDownload_doit_noclash c hub de dm (a :: rest) hfc]
  simp only [DoitRun.outcome, Option.map_some]
  rw [runLoop_success () de _ a rest res h1 h2 h3]
  constructor
  · intro p hp
    have haltE : c.altEntry = some p := by
      rw [mediaDownload_altEntry, hp]
    have hpl : c.paramsList = c.params1 := by
      unfold MediaDownloadCall.paramsList
      rw [haltE]
      rfl
    constructor
    · intro hne
      have hen : c.enableResourceParsing = false := by
        unfold MediaDownloadCall.enableResourceParsing
        rw [haltE]
        exact beq_eq_false_iff_ne.mpr hne
      constructor
      · simp [DoitTrace.final, hen]
      · rw [hpl, mediaDownload_removeParams_noAlt]
        rfl
    · intro hje
      have hen : c.enableResourceParsing = true := by
        unfold MediaDownloadCall.enableResourceParsing
        rw [haltE]
        exact beq_iff_eq.mpr hje
      refine ⟨?_, ?_, ?_⟩
      · rw [hpl, mediaDownload_removeParams_noAlt]
        rfl
      · intro v hv
        simp [DoitTrace.final, hen, onSuccessDecode, hv]
      · intro hv
        simp [DoitTrace.final, hen, onSuccessDecode, hv]
  · intro hp
    have haltE : c.altEntry = none := by
      rw [mediaDownload_altEntry, hp]
    have hpl : c.paramsList = c.params1 ++ [("alt".data, "json".data)] := by
      unfold MediaDownloadCall.paramsList
      rw [haltE]
      rfl
    have hen : c.enableResourceParsing = true := by
      unfold MediaDownloadCall.enableResourceParsing
      rw [haltE]
    refine ⟨?_, ?_, ?_⟩
    · rw [hpl, mediaDownload_removeParams_altAdded]
      rfl
    · intro v hv
      simp [DoitTrace.final, hen, onSuccessDecode, hv]
    · intro hv
      simp [DoitTrace.final, hen, onSuccessDecode, hv]

/-- Witness for C9: with `alt=media` set, a success run returns the default
`GdataMedia` without decoding; with `alt` unset, the query gains
`alt=json`. -/
theorem media_download_alt_handling_witness :
    ((MediaDownloadCall.mk "rn".data [("alt".data, "media".data)]).doit
        youTubeReportingNew (fun _ => none) (fun _ => none) [okAttempt]).outcome =
      some (Except.ok (okResp, (default : GdataMedia))) ∧
    ((MediaDownloadCall.mk "rn".data []).doit youTubeReportingNew (fun _ => none)
        (fun _ => none) [okAttempt]).request.map PreparedRequest.query =
      some [("alt".data, "json".data)] :=
  ⟨(((media_download_alt_handling
        (MediaDownloadCall.mk "rn".data [("alt".data, "media".data)])
        youTubeReportingNew (fun _ => none) (fun _ => none) okAttempt [] okResp
        (by decide) (by decide) rfl (by decide)).1
      ("alt".data, "media".data) (by decide)).1 (by decide)).1,
    ((media_download_alt_handling (MediaDownloadCall.mk "rn".data [])
        youTubeReportingNew (fun _ => none) (fun _ => none) okAttempt [] okResp
        (by decide) (by decide) rfl (by decide)).2 (by decide)).1⟩

/-! ## C8: the request body of the body-carrying call -/

/-- C8: every HTTP request the batch-process `doit` issues carries the one
body serialized before the loop — the serde value of the request struct with
JSON nulls removed — with `Content-Type: application/json` and a
`Content-Length` equal to the body's byte length. -/
theorem doit_request_body_serialization :
    ∀ (c : ProjectDocumentBatchProcesCall) (hub : HubState) tv de dOp env,
      firstClash batchProcessKnownParams c._additional_params = none →
      ∀ s ∈ (c.doit hub tv de dOp env).trace.sent,
        s = { contentType := "application/json".data,
              contentLength := (strUtf8Bytes (c.bodyString tv)).length,
              body := c.bodyString tv } := by
  intro c hub tv de dOp env hfc s hs
  rw [batchProcess_doit_noclash c hub tv de dOp env hfc] at hs
  exact runLoop_sent_const (c.sentRequest tv) de (onSuccessDecode dOp) env s hs

/-- Witness for C8: a concrete one-attempt run; the request struct serializes
(after null removal) to the empty JSON object, of byte length 2. -/
theorem doit_request_body_serialization_witness :
    firstClash batchProcessKnownParams ([] : List (Str × Str)) = none ∧
    ((ProjectDocumentBatchProcesCall.mk
          (GoogleCloudDocumentaiV1beta2BatchProcessDocumentsRequest.mk none)
          "p1".data []).doit documentNew
        (fun _ => JVal.obj [("requests".data, JVal.null)]) (fun _ => none)
        (fun _ => none) [okAttempt]).trace.sent =
      [{ contentType := "application/json".data, contentLength := 2,
         body := [lbrace, rbrace] }] ∧
    ({ contentType := "application/json".data, contentLength := 2,
       body := [lbrace, rbrace] } : SentRequest) =
      { contentType := "application/json".data,
        contentLength := (strUtf8Bytes
          ((ProjectDocumentBatchProcesCall.mk
              (GoogleCloudDocumentaiV1beta2BatchProcessDocumentsRequest.mk none)
              "p1".data []).bodyString
            (fun _ => JVal.obj [("requests".data, JVal.null)]))).length,
        body := (ProjectDocumentBatchProcesCall.mk
            (GoogleCloudDocumentaiV1beta2BatchProcessDocumentsRequest.mk none)
            "p1".data []).bodyString
          (fun _ => JVal.obj [("requests".data, JVal.null)]) } :=
  ⟨by decide, by decide,
    doit_request_body_serialization
      (ProjectDocumentBatchProcesCall.mk
        (GoogleCloudDocumentaiV1beta2BatchProcessDocumentsRequest.mk none)
        "p1".data [])
      documentNew (fun _ => JVal.obj [("requests".data, JVal.null)])
      (fun _ => none) (fun _ => none) [okAttempt] (by decide)
      { contentType := "application/json".data, contentLength := 2,
        body := [lbrace, rbrace] } (by decide)⟩

/-! ## C4: URL construction (string-replacement lemmas) -/

lemma listReplaceAux_nil (pat rep : Str) (fuel : Nat) :
    listReplaceAux pat rep fuel [] = [] := by
  cases fuel <;> rfl

lemma listReplaceAux_fuel (pat rep : Str) :
    ∀ fuel s, s.length ≤ fuel →
      listReplaceAux pat rep fuel s = listReplace pat rep s := by
  intro fuel
  induction fuel using Nat.strong_induction_on with
  | _ fuel ih =>
    intro s hs
    cases s with
    | nil =>
      rw [listReplaceAux_nil]
      rfl
    | cons c rest =>
      cases fuel with
      | zero => exact absurd hs (by simp)
      | succ f =>
        have hrest : rest.length ≤ f := by
          simp only [List.length_cons] at hs
          omega
        unfold listReplace
        simp only [List.length_cons, listReplaceAux]
        by_cases hc : pat ≠ [] ∧ strStartsWith pat (c :: rest)
        · rw [if_pos hc, if_pos hc]
          congr 1
          rw [ih f (Nat.lt_succ_self f) _
              (le_trans (by rw [List.length_drop]; omega) hrest)]
          rw [ih rest.length (Nat.lt_succ_of_le hrest) _
              (by rw [List.length_drop]; omega)]
        · rw [if_neg hc, if_neg hc]
          congr 1
          rw [ih f (Nat.lt_succ_self f) rest hrest]
          rw [ih rest.length (Nat.lt_succ_of_le hrest) rest (le_refl _)]

lemma listReplace_cons (pat rep : Str) (c : Char) (rest : Str) :
    listReplace pat rep (c :: rest) =
      if pat ≠ [] ∧ strStartsWith pat (c :: rest) then
        rep ++ listReplace pat rep (rest.drop (pat.length - 1))
      else c :: listReplace pat rep rest := by
  show listReplaceAux pat rep (c :: rest).length (c :: rest) = _
  simp only [List.length_cons, listReplaceAux]
  by_cases hc : pat ≠ [] ∧ strStartsWith pat (c :: rest)
  · rw [if_pos hc, if_pos hc]
    congr 1
    exact listReplaceAux_fuel pat rep rest.length _ (by rw [List.length_drop]; omega)
  · rw [if_neg hc, if_neg hc]
    rfl

lemma strStartsWith_append (x y : Str) : strStartsWith x (x ++ y) = true := by
  induction x with
  | nil => rfl
  | cons c x ih => simp [strStartsWith, ih]

lemma listReplace_append_left (pt rep : Str) :
    ∀ (a s : Str), a.all (fun ch => ch != lbrace) = true →
      listReplace (lbrace :: pt) rep (a ++ s) =
        a ++ listReplace (lbrace :: pt) rep s := by
  intro a
  induction a with
  | nil =>
    intro s _
    simp
  | cons c a ih =>
    intro s ha
    simp only [List.all_cons, Bool.and_eq_true] at ha
    obtain ⟨hc, ha⟩ := ha
    have hne : (lbrace == c) = false :=
      beq_eq_false_iff_ne.mpr (Ne.symm (bne_iff_ne.mp hc))
    rw [List.cons_append, listReplace_cons, if_neg, ih s ha, List.cons_append]
    intro hcc
    have := hcc.2
    simp [strStartsWith, hne] at this

lemma listReplace_head_match (pat rep b : Str) (hp : pat ≠ []) :
    listReplace pat rep (pat ++ b) = rep ++ listReplace pat rep b := by
  cases pat with
  | nil => exact absurd rfl hp
  | cons p pt =>
    rw [List.cons_append, listReplace_cons, if_pos]
    · congr 2
      simp only [List.length_cons, Nat.add_sub_cancel]
      exact List.drop_left pt b
    · refine ⟨by simp, ?_⟩
      rw [← List.cons_append]
      exact strStartsWith_append (p :: pt) b

lemma listReplace_no_occurrence (pat rep : Str) :
    ∀ s, containsSub pat s = false → listReplace pat rep s = s := by
  intro s
  induction s with
  | nil =>
    intro _
    rfl
  | cons c rest ih =>
    intro h
    simp only [containsSub, Bool.or_eq_false_iff] at h
    obtain ⟨h1, h2⟩ := h
    rw [listReplace_cons, if_neg, ih h2]
    intro hcc
    rw [hcc.2] at h1
    exact Bool.true_eq_false.mp h1

lemma listReplace_self (pat rep : Str) (hp : pat ≠ []) :
    listReplace pat rep pat = rep := by
  have h := listReplace_head_match pat rep [] hp
  rw [List.append_nil] at h
  rw [h, show listReplace pat rep [] = [] from rfl, List.append_nil]

lemma jobReportGet_url (base j r : Str) (hb : noBrace base = true)
    (hj : noBrace j = true) :
    listReplace "\x7breportId\x7d".data r
        (listReplace "\x7bjobId\x7d".data j (base ++ jobReportGetPath)) =
      base ++ "v1/jobs/".data ++ j ++ "/reports/".data ++ r := by
  unfold noBrace at hb hj
  have hp1 : ("\x7bjobId\x7d".data : Str) = lbrace :: "jobId\x7d".data := by decide
  have hp2 : ("\x7breportId\x7d".data : Str) = lbrace :: "reportId\x7d".data := by
    decide
  have hpath : (jobReportGetPath : Str) =
      "v1/jobs/".data ++ ("\x7bjobId\x7d".data ++
        ("/reports/".data ++ "\x7breportId\x7d".data)) := by decide
  have step1 : listReplace "\x7bjobId\x7d".data j (base ++ jobReportGetPath) =
      base ++ ("v1/jobs/".data ++ (j ++ ("/reports/".data ++ "\x7breportId\x7d".data))) := by
    rw [hpath, hp1, ← List.append_assoc base,
        listReplace_append_left _ _ (base ++ "v1/jobs/".data) _
          (by rw [List.all_append, hb]; decide),
        listReplace_head_match _ _ _ (by simp),
        listReplace_no_occurrence _ _ _ (by decide)]
    simp [List.append_assoc]
  rw [step1, hp2,
      listReplace_append_left _ _ base _ hb,
      listReplace_append_left _ _ ("v1/jobs/".data) _ (by decide),
      listReplace_append_left _ _ j _ hj,
      listReplace_append_left _ _ ("/reports/".data) _ (by decide),
      listReplace_self _ _ (by simp)]
  simp [List.append_assoc]

lemma batchProcess_substEncoded (c : ProjectDocumentBatchProcesCall) (u : Str) :
    substEncoded batchProcessPathPairs c.paramsList u =
      listReplace "\x7b+parent\x7d".data (percentEncodeDefault c._parent) u := rfl

lemma batchProcess_url (base p : Str) (hb : noBrace base = true) :
    listReplace "\x7b+parent\x7d".data (percentEncodeDefault p)
        (base ++ batchProcessPath) =
      base ++ "v1beta2/".data ++ percentEncodeDefault p ++
        "/documents:batchProcess".data := by
  unfold noBrace at hb
  have hp : ("\x7b+parent\x7d".data : Str) = lbrace :: "+parent\x7d".data := by decide
  have hpath : (batchProcessPath : Str) =
      "v1beta2/".data ++ ("\x7b+parent\x7d".data ++ "/documents:batchProcess".data) := by
    decide
  rw [hpath, hp, ← List.append_assoc base,
      listReplace_append_left _ _ (base ++ "v1beta2/".data) _
        (by rw [List.all_append, hb]; decide),
      listReplace_head_match _ _ _ (by simp),
      listReplace_no_occurrence _ _ _ (by decide)]
  simp [List.append_assoc]

/-- C4: the request URL is the hub's base url with the fixed path template's
placeholders substituted by the path-parameter values (`{+param}` values
percent-encoded), the substituted path parameters are removed from the
parameter list, and the remaining parameters — the set known query
parameters, all additional parameters and `alt=json` — are handed to the URL
parser as query parameters.  (Shown for `JobReportGetCall`, whose template
uses plain `{param}` placeholders, and `ProjectDocumentBatchProcesCall`,
whose template uses `{+parent}`.) -/
theorem doit_url_construction :
    (∀ (c : JobReportGetCall) (hub : HubState) de dr env,
        firstClash jobReportGetKnownParams c._additional_params = none →
        noBrace hub._base_url = true →
        noBrace c._job_id = true →
        (c.doit hub de dr env).request =
          some { url := hub._base_url ++ "v1/jobs/".data ++ c._job_id ++
                    "/reports/".data ++ c._report_id,
                 query := (match c._on_behalf_of_content_owner with
                           | some v => [("onBehalfOfContentOwner".data, v)]
                           | none => []) ++
                   c._additional_params ++ [("alt".data, "json".data)] }) ∧
    (∀ (c : ProjectDocumentBatchProcesCall) (hub : HubState) tv de dOp env,
        firstClash batchProcessKnownParams c._additional_params = none →
        noBrace hub._base_url = true →
        (c.doit hub tv de dOp env).request =
          some { url := hub._base_url ++ "v1beta2/".data ++
                    percentEncodeDefault c._parent ++ "/documents:batchProcess".data,
                 query := c._additional_params ++ [("alt".data, "json".data)] }) := by
  constructor
  · intro c hub de dr env hfc hb hj
    rw [jobReportGet_doit_noclash c hub de dr env hfc]
    dsimp only
    rw [jobReportGet_url hub._base_url c._job_id c._report_id hb hj,
        jobReportGet_removeParams]
  · intro c hub tv de dOp env hfc hb
    rw [batchProcess_doit_noclash c hub tv de dOp env hfc]
    dsimp only
    rw [batchProcess_substEncoded,
        batchProcess_url hub._base_url c._parent hb]
    rfl

/-- Witness for C4: concrete calls against the default hubs; the documentai
parent value contains a space, which the `{+parent}` substitution
percent-encodes as `%20`. -/
theorem doit_url_construction_witness :
    (noBrace youTubeReportingNew._base_url = true ∧ noBrace "j1".data = true ∧
      noBrace documentNew._base_url = true) ∧
    ((JobReportGetCall.mk "j1".data "r1".data none []).doit youTubeReportingNew
        (fun _ => none) (fun _ => none) []).request =
      some { url := "https://youtubereporting.googleapis.com/v1/jobs/j1/reports/r1".data,
             query := [("alt".data, "json".data)] } ∧
    ((ProjectDocumentBatchProcesCall.mk
        (GoogleCloudDocumentaiV1beta2BatchProcessDocumentsRequest.mk none)
        "p q".data []).doit documentNew (fun _ => JVal.null) (fun _ => none)
        (fun _ => none) []).request =
      some { url := "https://documentai.googleapis.com/v1beta2/p%20q/documents:batchProcess".data,
             query := [("alt".data, "json".data)] } := by
  refine ⟨by decide, ?_, ?_⟩
  · have h := doit_url_construction.1 (JobReportGetCall.mk "j1".data "r1".data none [])
      youTubeReportingNew (fun _ => none) (fun _ => none) [] (by decide) (by decide)
      (by decide)
    rw [h]
    decide
  · have h := doit_url_construction.2 (ProjectDocumentBatchProcesCall.mk
        (GoogleCloudDocumentaiV1beta2BatchProcessDocumentsRequest.mk none)
        "p q".data [])
      documentNew (fun _ => JVal.null) (fun _ => none) (fun _ => none) []
      (by decide) (by decide)
    rw [h]
    decide
